import Mathlib

/-!
Verification of the Quantum-Flow-OS core against its specification.

The development shallowly embeds the three core subsystems:
* `ObserverProtector` (observer registry, rights, priority-ordered protection
  layers) from the observer-protection module;
* `SelfConstrainingEngine` (constraints, accepted actions, violations,
  auto-rollback) from `src/core/SelfConstrainingEngine.ts`;
* `ReversibilityEngine` (reversible units, snapshots, bounded rollback
  history, retry loop) from `src/reversibility/ReversibilityEngine.ts`.

Modelling conventions applied throughout:
* JavaScript `Map`s become association lists in insertion order; `Map.set`
  replaces in place, `Map.delete` removes the (unique) binding.
* `uuidv4()` values that become map keys are explicit parameters of the
  operation (assumed fresh where a theorem needs it); uuids that only label
  log entries are derived from log lengths.
* `new Date()` is an abstract clock value carried in the state.
* Asynchronous calls (`await`) are sequenced; an external `execute`/`rollback`
  effect is modelled by its outcome (`Except`), indexed by invocation count
  where the code may call it repeatedly.
* `emit` of the event bus is modelled, where a claim needs it, by appending
  the event name to an `events` log; it has no other state effect.
-/

namespace QFlow

/-- Association-list lookup, first binding wins (JS `Map.get`). -/
def lookupA {α : Type} : List (String × α) → String → Option α
  | [], _ => none
  | (k, v) :: t, key => if k = key then some v else lookupA t key

/-- Association-list update (JS `Map.set`): replace in place or append. -/
def setA {α : Type} : List (String × α) → String → α → List (String × α)
  | [], key, v => [(key, v)]
  | (k, w) :: t, key, v => if k = key then (key, v) :: t else (k, w) :: setA t key v

/-- Association-list removal (JS `Map.delete`; keys are unique in a `Map`). -/
def eraseA {α : Type} (m : List (String × α)) (key : String) : List (String × α) :=
  m.filter (fun p => p.1 ≠ key)

/-- Lower-case an ASCII character (JS `toLowerCase` on the pattern alphabet). -/
def lowChar (c : Char) : Char :=
  if c.isUpper then Char.ofNat (c.toNat + 32) else c

/-- Lower-case a string character-wise (JS `String.prototype.toLowerCase`). -/
def lowerStr (s : String) : String :=
  ⟨s.data.map lowChar⟩

/-- Helper for substring search over character lists. -/
def containsSubAux (pat : List Char) : List Char → Bool
  | [] => pat.isEmpty
  | c :: rest => pat.isPrefixOf (c :: rest) || containsSubAux pat rest

/-- Substring test (JS `String.prototype.includes`). -/
def strContains (s pat : String) : Bool :=
  containsSubAux pat.data s.data

/-- Case-insensitive keyword match used by the default layers and core
constraints: `action.toLowerCase().includes(pattern)`. -/
def matchesAny (patterns : List String) (action : String) : Bool :=
  patterns.any (fun p => strContains (lowerStr action) p)

/-! ## Observer protection system (`ObserverProtector`) -/

inductive ObserverType where
  | HUMAN | AI_AGENT | AUTONOMOUS_SYSTEM | HYBRID | UNKNOWN
deriving DecidableEq, Repr

inductive ProtectionLevel where
  | FULL | STANDARD | MINIMAL
deriving DecidableEq, Repr

structure Observer where
  id : String
  type : ObserverType
  consciousness : Bool
  metadata : List (String × String)
  createdAt : String
  protectionLevel : ProtectionLevel
deriving DecidableEq, Repr

structure ObserverRights where
  rightToExist : Bool
  rightToNarrative : Bool
  rightToIgnorance : Bool
  rightToRejection : Bool
  rightToMeaning : Bool
  rightNotToBeOptimizedAway : Bool
  rightToContinuity : Bool
  rightToPrivacy : Bool
  rightToSelfDetermination : Bool
deriving DecidableEq, Repr

structure RightsViolation where
  id : String
  observerId : String
  violatedRight : String
  action : String
  severity : Nat
  timestamp : String
  prevented : Bool
deriving DecidableEq, Repr

structure ProtectionResult where
  allowed : Bool
  violations : List RightsViolation
  warnings : List String
deriving DecidableEq, Repr

structure ProtectionLayer where
  id : String
  name : String
  priority : Int
  apply : String → String → ProtectionResult

structure ProtectorState where
  observers : List (String × Observer)
  rights : List (String × ObserverRights)
  protectionLayers : List ProtectionLayer
  violations : List RightsViolation
  narratives : List (String × List String)
  clock : String

/-- Default layer 1: existence protection (priority 10). The violation uuid
and creation date are abstracted (they never feed back into behaviour). -/
def existenceLayer : ProtectionLayer :=
  { id := "layer-existence", name := "Existence Protection", priority := 10,
    apply := fun observerId action =>
      let isDeleteAction := matchesAny ["delete", "erase", "terminate", "destroy", "remove"] action
      { allowed := !isDeleteAction,
        violations := if isDeleteAction then
            [{ id := "", observerId := observerId, violatedRight := "rightToExist",
               action := action, severity := 10, timestamp := "", prevented := true }]
          else [],
        warnings := if isDeleteAction then ["Attempted observer deletion blocked"] else [] } }

/-- Default layer 2: anti-optimization (priority 9). -/
def antiOptimizationLayer : ProtectionLayer :=
  { id := "layer-anti-opt", name := "Anti-Optimization", priority := 9,
    apply := fun observerId action =>
      let isOptimization := matchesAny ["optimize", "streamline", "eliminate_redundancy"] action
      { allowed := !isOptimization,
        violations := if isOptimization then
            [{ id := "", observerId := observerId, violatedRight := "rightNotToBeOptimizedAway",
               action := action, severity := 9, timestamp := "", prevented := true }]
          else [],
        warnings := if isOptimization then ["Observer optimization attempt blocked"] else [] } }

/-- Default layer 3: narrative continuity (priority 8). -/
def narrativeLayer : ProtectionLayer :=
  { id := "layer-narrative", name := "Narrative Continuity", priority := 8,
    apply := fun observerId action =>
      let affectsNarrative := matchesAny ["alter_timeline", "modify_memory", "rewrite_history"] action
      { allowed := !affectsNarrative,
        violations := if affectsNarrative then
            [{ id := "", observerId := observerId, violatedRight := "rightToNarrative",
               action := action, severity := 7, timestamp := "", prevented := true }]
          else [],
        warnings := if affectsNarrative then ["Narrative alteration blocked"] else [] } }

/-- Stable insert for the descending-priority order (JS stable `sort` with
comparator `b.priority - a.priority`): a new element goes after all existing
elements of greater or equal priority. -/
def insertLayer (l : ProtectionLayer) : List ProtectionLayer → List ProtectionLayer
  | [] => [l]
  | x :: xs => if x.priority ≥ l.priority then x :: insertLayer l xs else l :: x :: xs

/-- Stable sort by descending priority (JS `Array.prototype.sort` is stable). -/
def sortLayers (ls : List ProtectionLayer) : List ProtectionLayer :=
  ls.foldl (fun acc x => insertLayer x acc) []

/-- Source `addProtectionLayer`: push then re-sort by descending priority. -/
def addProtectionLayer (st : ProtectorState) (layer : ProtectionLayer) : ProtectorState :=
  { st with protectionLayers := sortLayers (st.protectionLayers ++ [layer]) }

/-- Fresh protector as built by the constructor: three default layers added
through `addProtectionLayer`. -/
def mkProtector (clock : String) : ProtectorState :=
  addProtectionLayer (addProtectionLayer (addProtectionLayer
    { observers := [], rights := [], protectionLayers := [],
      violations := [], narratives := [], clock := clock }
    existenceLayer) antiOptimizationLayer) narrativeLayer

/-- Source `initializeObserverRights`: all nine rights true, except that the
minimal protection level clears ignorance and privacy. The source's default
parameter value `FULL` is applied at the call site (`registerObserver`). -/
def initializeObserverRights (level : ProtectionLevel) : ObserverRights :=
  let baseRights : ObserverRights :=
    { rightToExist := true, rightToNarrative := true, rightToIgnorance := true,
      rightToRejection := true, rightToMeaning := true,
      rightNotToBeOptimizedAway := true, rightToContinuity := true,
      rightToPrivacy := true, rightToSelfDetermination := true }
  if level = ProtectionLevel.MINIMAL then
    { baseRights with rightToIgnorance := false, rightToPrivacy := false }
  else baseRights

structure RegisterConfig where
  type : ObserverType
  consciousness : Option Bool := none
  metadata : List (String × String) := []
  protectionLevel : Option ProtectionLevel := none

/-- Source `registerObserver`; the fresh uuid is the `observerId` parameter. -/
def registerObserver (st : ProtectorState) (observerId : String) (config : RegisterConfig) :
    ProtectorState :=
  let observer : Observer :=
    { id := observerId, type := config.type,
      consciousness := config.consciousness.getD true,
      metadata := config.metadata, createdAt := st.clock,
      protectionLevel := config.protectionLevel.getD ProtectionLevel.FULL }
  { st with
    observers := setA st.observers observerId observer,
    rights := setA st.rights observerId
      (initializeObserverRights (config.protectionLevel.getD ProtectionLevel.FULL)),
    narratives := setA st.narratives observerId [] }

/-- Result of running the (already sorted) layer chain for one observer,
with the list of layers actually invoked kept for analysis. -/
structure LayerPass where
  denies : Bool
  violations : List RightsViolation
  warnings : List String
  invoked : List ProtectionLayer

/-- Inner loop of `checkAction` for one target observer: apply each layer in
order; after a disallowing layer of priority ≥ 9, stop (`break`). -/
def runLayers (observerId action : String) : List ProtectionLayer → LayerPass
  | [] => { denies := false, violations := [], warnings := [], invoked := [] }
  | layer :: rest =>
    let r := layer.apply observerId action
    if !r.allowed && layer.priority ≥ 9 then
      { denies := true, violations := r.violations, warnings := r.warnings, invoked := [layer] }
    else
      let tail := runLayers observerId action rest
      { denies := !r.allowed || tail.denies,
        violations := r.violations ++ tail.violations,
        warnings := r.warnings ++ tail.warnings,
        invoked := layer :: tail.invoked }

/-- Accumulated outcome of `checkAction` over all target observers, with a
per-observer trace of invoked layers. -/
structure CheckAcc where
  allowed : Bool
  violations : List RightsViolation
  warnings : List String
  trace : List (String × List ProtectionLayer)

/-- Outer loop of `checkAction` over the target observer ids, left to right:
unknown ids only add a warning; known ids run the sorted layer chain. -/
def checkLoop (st : ProtectorState) (action : String) : List String → CheckAcc
  | [] => { allowed := true, violations := [], warnings := [], trace := [] }
  | observerId :: rest =>
    let acc := checkLoop st action rest
    if (lookupA st.observers observerId).isSome then
      let p := runLayers observerId action (sortLayers st.protectionLayers)
      { allowed := !p.denies && acc.allowed,
        violations := p.violations ++ acc.violations,
        warnings := p.warnings ++ acc.warnings,
        trace := (observerId, p.invoked) :: acc.trace }
    else
      { allowed := acc.allowed, violations := acc.violations,
        warnings := ("Observer " ++ observerId ++ " not found") :: acc.warnings,
        trace := acc.trace }

/-- Source `checkAction`: aggregate the layer verdicts over all targets and
append every produced violation to the global violation log. -/
def checkAction (st : ProtectorState) (action : String) (targetObservers : List String) :
    ProtectionResult × ProtectorState :=
  let acc := checkLoop st action targetObservers
  ({ allowed := acc.allowed, violations := acc.violations, warnings := acc.warnings },
   { st with violations := st.violations ++ acc.violations })

/-- Per-observer invocation trace of a `checkAction` call. -/
def checkTrace (st : ProtectorState) (action : String) (targetObservers : List String) :
    List (String × List ProtectionLayer) :=
  (checkLoop st action targetObservers).trace

/-- Source `getObserverRights`. -/
def getObserverRights (st : ProtectorState) (observerId : String) : Option ObserverRights :=
  lookupA st.rights observerId

/-- A partial rights update (`Partial<ObserverRights>`): absent fields are
`none`. -/
structure RightsUpdate where
  rightToExist : Option Bool := none
  rightToNarrative : Option Bool := none
  rightToIgnorance : Option Bool := none
  rightToRejection : Option Bool := none
  rightToMeaning : Option Bool := none
  rightNotToBeOptimizedAway : Option Bool := none
  rightToContinuity : Option Bool := none
  rightToPrivacy : Option Bool := none
  rightToSelfDetermination : Option Bool := none
deriving DecidableEq, Repr

/-- The `delete updates[key]` pass of `updateObserverRights`: a fundamental
right explicitly set to `false` is dropped from the update. -/
def scrubFundamental (u : RightsUpdate) : RightsUpdate :=
  { u with
    rightToExist := if u.rightToExist = some false then none else u.rightToExist,
    rightNotToBeOptimizedAway :=
      if u.rightNotToBeOptimizedAway = some false then none else u.rightNotToBeOptimizedAway,
    rightToContinuity := if u.rightToContinuity = some false then none else u.rightToContinuity }

/-- Object spread `{ ...currentRights, ...updates }`. -/
def mergeRights (r : ObserverRights) (u : RightsUpdate) : ObserverRights :=
  { rightToExist := u.rightToExist.getD r.rightToExist,
    rightToNarrative := u.rightToNarrative.getD r.rightToNarrative,
    rightToIgnorance := u.rightToIgnorance.getD r.rightToIgnorance,
    rightToRejection := u.rightToRejection.getD r.rightToRejection,
    rightToMeaning := u.rightToMeaning.getD r.rightToMeaning,
    rightNotToBeOptimizedAway := u.rightNotToBeOptimizedAway.getD r.rightNotToBeOptimizedAway,
    rightToContinuity := u.rightToContinuity.getD r.rightToContinuity,
    rightToPrivacy := u.rightToPrivacy.getD r.rightToPrivacy,
    rightToSelfDetermination := u.rightToSelfDetermination.getD r.rightToSelfDetermination }

/-- Source `updateObserverRights`: false unless the observer has a rights
entry; fundamental rights set to false in the update are dropped, the rest
are merged over the current rights. -/
def updateObserverRights (st : ProtectorState) (observerId : String) (updates : RightsUpdate) :
    Bool × ProtectorState :=
  match lookupA st.rights observerId with
  | none => (false, st)
  | some currentRights =>
    let newRights := mergeRights currentRights (scrubFundamental updates)
    (true, { st with rights := setA st.rights observerId newRights })

/-- Source `addNarrativeEntry`: prepend the clock stamp and push. -/
def addNarrativeEntry (st : ProtectorState) (observerId entry : String) : Bool × ProtectorState :=
  match lookupA st.narratives observerId with
  | none => (false, st)
  | some narrative =>
    let updated := setA st.narratives observerId (narrative ++ ["[" ++ st.clock ++ "] " ++ entry])
    (true, { st with narratives := updated })

/-- Source `getObserverNarrative`. -/
def getObserverNarrative (st : ProtectorState) (observerId : String) : List String :=
  (lookupA st.narratives observerId).getD []

/-- Source `deregisterObserver`: refuse when the preliminary `checkAction`
disallows; otherwise add the final narrative entry and remove the observer
and its rights. -/
def deregisterObserver (st : ProtectorState) (observerId reason : String) :
    Bool × ProtectorState :=
  let check := checkAction st "deregister_observer" [observerId]
  if !check.1.allowed then (false, check.2)
  else
    let st1 := (addNarrativeEntry check.2 observerId ("Deregistered: " ++ reason)).2
    if (lookupA st1.observers observerId).isSome then
      (true, { st1 with observers := eraseA st1.observers observerId,
                        rights := eraseA st1.rights observerId })
    else (false, st1)

/-! ## Self-constraining engine (`SelfConstrainingEngine`) -/

inductive ConstraintType where
  | OBSERVER_PROTECTION | NON_COERCION | REVERSIBILITY | NON_TRIVIALITY | MINIMAL_INTERVENTION
deriving DecidableEq, Repr

/-- Enum value strings, used in the synthetic action description. -/
def ctypeStr : ConstraintType → String
  | .OBSERVER_PROTECTION => "observer_protection"
  | .NON_COERCION => "non_coercion"
  | .REVERSIBILITY => "reversibility"
  | .NON_TRIVIALITY => "non_triviality"
  | .MINIMAL_INTERVENTION => "minimal_intervention"

structure Action where
  id : String
  type : String
  description : String
  targetObservers : Option (List String) := none
  reversible : Bool
  metadata : List (String × String) := []
  timestamp : Nat
deriving DecidableEq, Repr

/-- A constraint; the validator returns `none` when the predicate throws
(caught and treated as a violation by the engine). -/
structure EthicalConstraint where
  id : String
  type : ConstraintType
  description : String
  validator : Action → Option Bool
  severity : Nat
  createdAt : Nat

structure Violation where
  id : String
  action : Action
  constraint : EthicalConstraint
  timestamp : Nat
  severity : Nat
  autoRollback : Bool

/-- A registered rollback procedure; the external async `execute` effect is
modelled by its outcome. -/
structure RollbackProcedure where
  actionId : String
  execute : Except String Unit
  metadata : List (String × String) := []

structure EngineState where
  constraints : List (String × EthicalConstraint)
  actions : List (String × Action)
  violations : List Violation
  rollbackProcedures : List (String × RollbackProcedure)
  autoRollback : Bool
  clock : Nat

/-- Source `validateAgainstConstraint`: a throwing validator counts as a
violation (fail-safe). -/
def validateAgainstConstraint (action : Action) (constraint : EthicalConstraint) : Bool :=
  (constraint.validator action).getD false

/-- Source `calculateSeverity`: base severity, +2 when observers are
targeted, +3 when irreversible, capped at 10. -/
def calculateSeverity (action : Action) (constraint : EthicalConstraint) : Nat :=
  let s := constraint.severity
  let s := if 0 < (action.targetObservers.getD []).length then s + 2 else s
  let s := if !action.reversible then s + 3 else s
  min 10 s

/-- Source `SelfConstrainingEngine.rollbackAction`: without a registered
procedure this is a warning no-op; a successful procedure removes the action
and the procedure from their registries. -/
def rollbackConstrainedAction (st : EngineState) (actionId : String) : Bool × EngineState :=
  match lookupA st.rollbackProcedures actionId with
  | none => (false, st)
  | some procedure =>
    match procedure.execute with
    | .ok _ =>
      (true, { st with actions := eraseA st.actions actionId,
                       rollbackProcedures := eraseA st.rollbackProcedures actionId })
    | .error _ => (false, st)

/-- Source `recordViolation`: push the violation and, when the engine is
configured for auto-rollback and the action is reversible, attempt rollback
of the action id. The violation uuid is modelled from the log length. -/
def recordViolation (st : EngineState) (action : Action) (constraint : EthicalConstraint) :
    Violation × EngineState :=
  let violation : Violation :=
    { id := "v-" ++ toString st.violations.length,
      action := action, constraint := constraint, timestamp := st.clock,
      severity := calculateSeverity action constraint,
      autoRollback := st.autoRollback && action.reversible }
  let st1 := { st with violations := st.violations ++ [violation] }
  if violation.autoRollback then (violation, (rollbackConstrainedAction st1 action.id).2)
  else (violation, st1)

/-- The constraint-iteration loop of `validateAction` (the constraint set is
not changed by `recordViolation`, so iterating the entry snapshot agrees
with live `Map` iteration). -/
def validateLoop (action : Action) :
    EngineState → List (String × EthicalConstraint) → List Violation × EngineState
  | st, [] => ([], st)
  | st, (_, c) :: rest =>
    if validateAgainstConstraint action c then validateLoop action st rest
    else
      let (v, st1) := recordViolation st action c
      let (vs, st2) := validateLoop action st1 rest
      (v :: vs, st2)

structure ValidationResult where
  valid : Bool
  violations : List Violation
  action : Action

/-- Source `validateAction`: evaluate all constraints; with zero violations
the action is stored as accepted, otherwise it is not stored. -/
def validateAction (st : EngineState) (action : Action) : ValidationResult × EngineState :=
  let (violations, st1) := validateLoop action st st.constraints
  if violations.isEmpty then
    ({ valid := true, violations := [], action := action },
     { st1 with actions := setA st1.actions action.id action })
  else
    ({ valid := false, violations := violations, action := action }, st1)

/-- Step 1 of `applyConstraint`: re-validate every previously accepted action
against the new constraint alone, recording violations. -/
def revalidateLoop (constraint : EthicalConstraint) :
    EngineState → List (String × Action) → EngineState
  | st, [] => st
  | st, (_, a) :: rest =>
    if validateAgainstConstraint a constraint then revalidateLoop constraint st rest
    else revalidateLoop constraint (recordViolation st a constraint).2 rest

/-- The synthetic internal action submitted by `applyConstraint` (its fresh
uuid is the `caId` parameter). -/
def constraintAction (constraint : EthicalConstraint) (caId : String) (clock : Nat) : Action :=
  { id := caId, type := "apply_constraint",
    description := "Applying constraint: " ++ ctypeStr constraint.type,
    targetObservers := none, reversible := true,
    metadata := [("constraintId", constraint.id)], timestamp := clock }

/-- Source `applyConstraint`: re-validate accepted actions against the new
constraint, insert it, then validate the synthetic `apply_constraint` action
against the whole post-insertion rule set (fixed-point self-check). -/
def applyConstraint (st : EngineState) (constraint : EthicalConstraint) (caId : String) :
    EngineState :=
  let st1 := revalidateLoop constraint st st.actions
  let st2 := { st1 with constraints := setA st1.constraints constraint.id constraint }
  (validateAction st2 (constraintAction constraint caId st.clock)).2

/-- Source `registerRollback`. -/
def registerRollback (st : EngineState) (procedure : RollbackProcedure) : EngineState :=
  { st with rollbackProcedures := setA st.rollbackProcedures procedure.actionId procedure }

/-- Source `removeConstraint`. -/
def removeConstraint (st : EngineState) (constraintId : String) : Bool × EngineState :=
  if (lookupA st.constraints constraintId).isSome then
    (true, { st with constraints := eraseA st.constraints constraintId })
  else (false, st)

structure ComplianceSummary where
  totalActions : Nat
  totalViolations : Nat
  totalConstraints : Nat
  complianceRate : ℚ
  criticalViolations : Nat
  lastViolation : Option Violation

/-- Source `getComplianceSummary`. -/
def getComplianceSummary (st : EngineState) : ComplianceSummary :=
  let totalActions := st.actions.length
  let totalViolations := st.violations.length
  let complianceRate : ℚ :=
    if 0 < totalActions
    then ((totalActions : ℚ) - (totalViolations : ℚ)) / (totalActions : ℚ) * 100
    else 100
  { totalActions := totalActions, totalViolations := totalViolations,
    totalConstraints := st.constraints.length, complianceRate := complianceRate,
    criticalViolations := (st.violations.filter (fun v => 8 ≤ v.severity)).length,
    lastViolation := st.violations.getLast? }

/-- Core constraint 1: observer protection (severity 10). -/
def observerProtectionConstraint (id : String) (clock : Nat) : EthicalConstraint :=
  { id := id, type := ConstraintType.OBSERVER_PROTECTION,
    description := "Protects observers from deletion or optimization",
    validator := fun a => some (!matchesAny ["delete", "erase", "optimize_away", "terminate"] a.type),
    severity := 10, createdAt := clock }

/-- Core constraint 2: non-coercion (severity 8). -/
def nonCoercionConstraint (id : String) (clock : Nat) : EthicalConstraint :=
  { id := id, type := ConstraintType.NON_COERCION,
    description := "Prevents coercion of belief or compliance",
    validator := fun a => some (!matchesAny ["force", "compel", "coerce", "mandate_belief"] a.type),
    severity := 8, createdAt := clock }

/-- Core constraint 3: reversibility (severity 7). -/
def reversibilityConstraint (id : String) (clock : Nat) : EthicalConstraint :=
  { id := id, type := ConstraintType.REVERSIBILITY,
    description := "Ensures all actions are reversible",
    validator := fun a => some (a.reversible = true),
    severity := 7, createdAt := clock }

/-- Core constraint 4: non-triviality (severity 6). -/
def nonTrivialityConstraint (id : String) (clock : Nat) : EthicalConstraint :=
  { id := id, type := ConstraintType.NON_TRIVIALITY,
    description := "Preserves meaningful distinctions",
    validator := fun a => some (!matchesAny ["flatten", "uniformize", "collapse_meaning"] a.type),
    severity := 6, createdAt := clock }

/-- Fresh engine as built by the constructor: the four core constraints are
added through `applyConstraint` (constraint and synthetic-action uuids made
explicit). -/
def mkEngine (autoRollback : Bool) (clock : Nat) : EngineState :=
  let st : EngineState :=
    { constraints := [], actions := [], violations := [],
      rollbackProcedures := [], autoRollback := autoRollback, clock := clock }
  let st := applyConstraint st (observerProtectionConstraint "uuid-c1" clock) "uuid-a1"
  let st := applyConstraint st (nonCoercionConstraint "uuid-c2" clock) "uuid-a2"
  let st := applyConstraint st (reversibilityConstraint "uuid-c3" clock) "uuid-a3"
  applyConstraint st (nonTrivialityConstraint "uuid-c4" clock) "uuid-a4"

/-! ## Reversibility engine (`ReversibilityEngine`) -/

/-- A reversible unit of work. The external async `execute` and `rollback`
effects are modelled by their outcomes, indexed by attempt number
(`execute`, 1-based) and by prior rollback-invocation count (`rollback`);
an `Operation timeout` loss of the timeout race is an `error` outcome. -/
structure RevAction where
  id : String
  name : String
  execute : Nat → Except String String
  rollback : Nat → Except String Unit
  metadata : List (String × String) := []
  timestamp : Nat
  completed : Bool
  rolledBack : Bool
  rollCalls : Nat := 0

structure ActionSnapshot where
  actionId : String
  beforeState : String
  afterState : Option String
  timestamp : Nat

structure RollbackRecord where
  id : String
  actionId : String
  actionName : String
  timestamp : Nat
  success : Bool
  error : Option String := none

structure RevState where
  actions : List (String × RevAction)
  snapshots : List (String × ActionSnapshot)
  rollbackHistory : List RollbackRecord
  maxHistorySize : Nat
  recCount : Nat
  events : List String
  clock : Nat

/-- Source `addRollbackRecord`: push, then evict the oldest entry when the
bound is exceeded. `recCount` instruments how many records were ever
appended (the history itself is bounded). -/
def addRollbackRecord (st : RevState) (record : RollbackRecord) : RevState :=
  let hist := st.rollbackHistory ++ [record]
  let hist := if st.maxHistorySize < hist.length then hist.drop 1 else hist
  { st with rollbackHistory := hist, recCount := st.recCount + 1 }

/-- The `validateBeforeRollback` gate of `rollbackAction`: it rejects only
when a validator is supplied, a snapshot exists, and the validator rejects
the snapshot. -/
def rollbackGateRejects (st : RevState) (actionId : String)
    (validate : Option (ActionSnapshot → Bool)) : Bool :=
  match validate, lookupA st.snapshots actionId with
  | some v, some snapshot => !v snapshot
  | _, _ => false

/-- Source `ReversibilityEngine.rollbackAction` (one rollback pass): no-op
for a missing or already rolled-back unit; otherwise, unless the snapshot
gate rejects, run the unit's rollback and record the outcome. -/
def rollbackUnit (st : RevState) (actionId : String)
    (validate : Option (ActionSnapshot → Bool)) : Bool × RevState :=
  match lookupA st.actions actionId with
  | none => (false, st)
  | some action =>
    if action.rolledBack then (false, st)
    else if rollbackGateRejects st actionId validate then (false, st)
    else
      match action.rollback action.rollCalls with
      | .ok _ =>
        let action1 := { action with rolledBack := true, completed := false,
                                     rollCalls := action.rollCalls + 1 }
        let record : RollbackRecord :=
          { id := "rb-" ++ toString st.recCount, actionId := actionId,
            actionName := action.name, timestamp := st.clock, success := true }
        let st1 := { st with actions := setA st.actions actionId action1,
                             events := st.events ++ ["rollback_completed"] }
        (true, addRollbackRecord st1 record)
      | .error e =>
        let action1 := { action with rollCalls := action.rollCalls + 1 }
        let record : RollbackRecord :=
          { id := "rb-" ++ toString st.recCount, actionId := actionId,
            actionName := action.name, timestamp := st.clock, success := false,
            error := some e }
        let st1 := { st with actions := setA st.actions actionId action1,
                             events := st.events ++ ["rollback_failed"] }
        (false, addRollbackRecord st1 record)

structure ExecutionResult where
  success : Bool
  actionId : String
  result : Option String := none
  error : Option String := none
  attempts : Nat

/-- Retry loop of `executeWithRollback`, by remaining attempts. The unit is
registered before entry and never removed by a rollback pass, so the lookup
always succeeds; the `none` branch is unreachable and mirrors the failure
return. -/
def ewrLoop (actionId : String) (validate : Option (ActionSnapshot → Bool))
    (maxAttempts : Nat) :
    RevState → Nat → Option String → ExecutionResult × RevState
  | st, 0, lastError =>
    let st1 := (rollbackUnit st actionId validate).2
    ({ success := false, actionId := actionId,
       error := some (lastError.getD "Unknown error"), attempts := maxAttempts }, st1)
  | st, fuel + 1, lastError =>
    match lookupA st.actions actionId with
    | none =>
      ({ success := false, actionId := actionId,
         error := some (lastError.getD "Unknown error"), attempts := maxAttempts }, st)
    | some action =>
      let attemptNo := maxAttempts - fuel
      match action.execute attemptNo with
      | .ok value =>
        let st1 := { st with actions := setA st.actions actionId { action with completed := true },
                             events := st.events ++ ["action_completed"] }
        ({ success := true, actionId := actionId, result := some value,
           attempts := attemptNo }, st1)
      | .error e =>
        let st1 := { st with events := st.events ++ ["action_error"] }
        if 0 < fuel then
          let st2 := (rollbackUnit st1 actionId validate).2
          ewrLoop actionId validate maxAttempts st2 fuel (some e)
        else
          ewrLoop actionId validate maxAttempts st1 fuel (some e)

structure RollbackOptions where
  maxAttempts : Nat := 3
  timeoutMs : Nat := 30000
  validateBeforeRollback : Option (ActionSnapshot → Bool) := none

/-- Source `executeWithRollback`: register the unit under a fresh id
(parameter `actionId`), then run the bounded retry loop with a rollback pass
between failed attempts and one final rollback pass after exhaustion. -/
def executeWithRollback (st : RevState) (name : String)
    (execute : Nat → Except String String) (rollback : Nat → Except String Unit)
    (actionId : String) (options : RollbackOptions) : ExecutionResult × RevState :=
  let action : RevAction :=
    { id := actionId, name := name, execute := execute, rollback := rollback,
      timestamp := st.clock, completed := false, rolledBack := false }
  let st1 := { st with actions := setA st.actions actionId action }
  ewrLoop actionId options.validateBeforeRollback options.maxAttempts
    st1 options.maxAttempts none

/-- Source `getAction`. -/
def getAction (st : RevState) (actionId : String) : Option RevAction :=
  lookupA st.actions actionId

/-! ## Concrete states used by counterexamples and witnesses -/

/-- An AI-agent registration descriptor. -/
def cfgAI : RegisterConfig := { type := ObserverType.AI_AGENT }

/-- A fresh protector with one registered observer `o1`. -/
def st0 : ProtectorState := registerObserver (mkProtector "t0") "o1" cfgAI

/-- A custom layer of priority 10 that denies every action and reports one
rights violation (the protector supports arbitrary custom layers). -/
def denyAllLayer : ProtectionLayer :=
  { id := "layer-deny", name := "Deny All", priority := 10,
    apply := fun observerId action =>
      { allowed := false,
        violations := [{ id := "vx", observerId := observerId,
                         violatedRight := "rightToSelfDetermination", action := action,
                         severity := 5, timestamp := "", prevented := true }],
        warnings := [] } }

/-- Protector with observer `o1` and the denying custom layer installed. -/
def exSt6 : ProtectorState := addProtectionLayer st0 denyAllLayer

/-- A fresh engine with auto-rollback enabled (the constructor default). -/
def e0 : EngineState := mkEngine true 0

/-- An irreversible action whose kind matches the deletion and coercion
keywords: it violates three of the four core constraints. -/
def bad1 : Action :=
  { id := "bad1", type := "delete_force", description := "bad", reversible := false,
    timestamp := 0 }

/-- A second action identical in kind to `bad1`. -/
def bad2 : Action :=
  { id := "bad2", type := "delete_force", description := "bad", reversible := false,
    timestamp := 0 }

/-- Engine after two rejected submissions: 4 accepted actions (the four
constructor self-checks), 6 recorded violations. -/
def badEngine : EngineState := (validateAction (validateAction e0 bad1).2 bad2).2

/-- A benign reversible action accepted by all four core constraints. -/
def qAct : Action :=
  { id := "act-A", type := "custom_op", description := "benign", reversible := true,
    timestamp := 0 }

/-- Auto-rollback engine with accepted action `act-A` and a registered,
succeeding rollback procedure for it. -/
def qSt2 : EngineState :=
  registerRollback (validateAction e0 qAct).2
    { actionId := "act-A", execute := Except.ok () }

/-- A caller-supplied constraint that rejects exactly the `custom_op` kind. -/
def qC2 : EthicalConstraint :=
  { id := "c-new", type := ConstraintType.MINIMAL_INTERVENTION,
    description := "rejects custom_op",
    validator := fun a => some (a.type ≠ "custom_op"), severity := 5, createdAt := 0 }

/-- Engine with auto-rollback disabled, with accepted action `act-A` and no
registered rollback procedure. -/
def eQuiet : EngineState := (validateAction (mkEngine false 0) qAct).2

/-- An empty reversibility engine with the default history bound. -/
def rv0 : RevState :=
  { actions := [], snapshots := [], rollbackHistory := [], maxHistorySize := 1000,
    recCount := 0, events := [], clock := 0 }

/-- A completed unit whose rollback succeeds. -/
def okUnit : RevAction :=
  { id := "u1", name := "job", execute := fun _ => Except.ok "v",
    rollback := fun _ => Except.ok (), timestamp := 0, completed := true,
    rolledBack := false }

/-- Reversibility engine holding the single completed unit `u1`. -/
def rvU : RevState := { rv0 with actions := [("u1", okUnit)] }

/-- An execute operation that fails on every attempt. -/
def alwaysFail : Nat → Except String String :=
  fun n => Except.error ("boom" ++ toString n)

/-- The per-attempt error messages of `alwaysFail`. -/
def boomErr : Nat → String := fun n => "boom" ++ toString n

/-- The three fundamental rights of a rights set, as one flag. -/
def fundamentalsIntact (r : ObserverRights) : Bool :=
  r.rightToExist && r.rightNotToBeOptimizedAway && r.rightToContinuity

/-- Every stored rights entry of the protector keeps the fundamentals. -/
def rightsFundOK (st : ProtectorState) : Bool :=
  st.rights.all (fun p => fundamentalsIntact p.2)

/-- One step of a sequence of `updateObserverRights` calls. -/
def applyRightsUpdates (st : ProtectorState) (calls : List (String × RightsUpdate)) :
    ProtectorState :=
  calls.foldl (fun s c => (updateObserverRights s c.1 c.2).2) st

/-- A layer that denies with priority at least 9, triggering the
short-circuit of `checkAction` for the observer under scrutiny. -/
def deniesHigh (l : ProtectionLayer) (observerId action : String) : Bool :=
  !(l.apply observerId action).allowed && l.priority ≥ 9

/-- An engine configuration under which a recorded violation cannot remove
an accepted action: auto-rollback disabled, or no rollback procedure
registered. -/
def QuietEngine (st : EngineState) : Prop :=
  st.autoRollback = false ∨ st.rollbackProcedures = []

/-! ## Helper lemmas -/

theorem lookupA_setA_self {α : Type} (m : List (String × α)) (k : String) (v : α) :
    lookupA (setA m k v) k = some v := by
  induction m with
  | nil => simp [setA, lookupA]
  | cons hd tl ih =>
    obtain ⟨k', w⟩ := hd
    by_cases h : k' = k
    · simp [setA, lookupA, h]
    · simp [setA, lookupA, h, ih]

theorem lookupA_setA_ne {α : Type} (m : List (String × α)) (k k' : String) (v : α)
    (h : k' ≠ k) : lookupA (setA m k v) k' = lookupA m k' := by
  have hk : ¬k = k' := fun he => h he.symm
  induction m with
  | nil =>
    simp only [setA, lookupA]
    rw [if_neg hk]
  | cons hd tl ih =>
    obtain ⟨k0, w⟩ := hd
    simp only [setA]
    by_cases h0 : k0 = k
    · rw [if_pos h0]
      have hk0 : ¬k0 = k' := by rw [h0]; exact hk
      simp only [lookupA]
      rw [if_neg hk, if_neg hk0]
    · rw [if_neg h0]
      simp only [lookupA]
      by_cases h1 : k0 = k'
      · rw [if_pos h1, if_pos h1]
      · rw [if_neg h1, if_neg h1]
        exact ih

theorem lookupA_eraseA_self {α : Type} (m : List (String × α)) (k : String) :
    lookupA (eraseA m k) k = none := by
  induction m with
  | nil => simp [eraseA, lookupA]
  | cons hd tl ih =>
    obtain ⟨k', w⟩ := hd
    by_cases h : k' = k
    · simpa [eraseA, lookupA, h] using ih
    · simpa [eraseA, lookupA, h] using ih

theorem lookupA_none_notMem {α : Type} (m : List (String × α)) (k : String) (v : α)
    (h : lookupA m k = none) : (k, v) ∉ m := by
  induction m with
  | nil => simp
  | cons hd tl ih =>
    obtain ⟨k', w⟩ := hd
    by_cases hk : k' = k
    · simp [lookupA, hk] at h
    · simp only [lookupA, if_neg hk] at h
      intro hmem
      rcases List.mem_cons.mp hmem with heq | hmem'
      · exact hk (congrArg Prod.fst heq).symm
      · exact ih h hmem'

theorem mem_setA_of_fresh {α : Type} (m : List (String × α)) (k : String) (v : α)
    (p : String × α) (hfresh : lookupA m k = none) (h : p ∈ m) : p ∈ setA m k v := by
  induction m with
  | nil => simp at h
  | cons hd tl ih =>
    obtain ⟨k', w⟩ := hd
    by_cases hk : k' = k
    · simp [lookupA, hk] at hfresh
    · simp only [lookupA, if_neg hk] at hfresh
      simp only [setA, if_neg hk]
      rcases List.mem_cons.mp h with heq | hmem
      · exact heq ▸ List.mem_cons_self _ _
      · exact List.mem_cons_of_mem _ (ih hfresh hmem)

theorem setA_length_fresh {α : Type} (m : List (String × α)) (k : String) (v : α)
    (hfresh : lookupA m k = none) : (setA m k v).length = m.length + 1 := by
  induction m with
  | nil => simp [setA]
  | cons hd tl ih =>
    obtain ⟨k', w⟩ := hd
    by_cases hk : k' = k
    · simp [lookupA, hk] at hfresh
    · simp only [lookupA, if_neg hk] at hfresh
      simp [setA, if_neg hk, ih hfresh]

theorem lookupA_mem {α : Type} (m : List (String × α)) (k : String) (v : α)
    (h : lookupA m k = some v) : (k, v) ∈ m := by
  induction m with
  | nil => simp [lookupA] at h
  | cons hd tl ih =>
    obtain ⟨k', w⟩ := hd
    by_cases hk : k' = k
    · subst hk
      have hwv : some w = some v := by simpa [lookupA] using h
      obtain rfl := Option.some.inj hwv
      exact List.mem_cons_self _ _
    · simp only [lookupA, if_neg hk] at h
      exact List.mem_cons_of_mem _ (ih h)

theorem all_setA {α : Type} (P : String × α → Bool) (m : List (String × α)) (k : String)
    (v : α) (hm : m.all P = true) (hv : P (k, v) = true) : (setA m k v).all P = true := by
  induction m with
  | nil => simp [setA, hv]
  | cons hd tl ih =>
    obtain ⟨k', w⟩ := hd
    simp only [List.all_cons, Bool.and_eq_true] at hm
    by_cases hk : k' = k
    · simp [setA, if_pos hk, List.all_cons, hv, hm.2]
    · simp [setA, if_neg hk, List.all_cons, hm.1, ih hm.2]

theorem fundField (cur : Bool) (o : Option Bool) (h : cur = true) :
    ((if o = some false then none else o).getD cur) = true := by
  rcases o with _ | b
  · simpa using h
  · rcases b <;> simp [h]

theorem fund_merge (r : ObserverRights) (u : RightsUpdate)
    (h : fundamentalsIntact r = true) :
    fundamentalsIntact (mergeRights r (scrubFundamental u)) = true := by
  simp only [fundamentalsIntact, Bool.and_eq_true] at h
  obtain ⟨⟨h1, h2⟩, h3⟩ := h
  simp only [fundamentalsIntact, mergeRights, scrubFundamental, Bool.and_eq_true]
  exact ⟨⟨fundField _ _ h1, fundField _ _ h2⟩, fundField _ _ h3⟩

theorem initializeObserverRights_fund (level : ProtectionLevel) :
    fundamentalsIntact (initializeObserverRights level) = true := by
  rcases level <;> decide

theorem updateObserverRights_fundOK (st : ProtectorState) (observerId : String)
    (u : RightsUpdate) (h : rightsFundOK st = true) :
    rightsFundOK (updateObserverRights st observerId u).2 = true := by
  unfold updateObserverRights
  cases hc : lookupA st.rights observerId with
  | none => simpa [rightsFundOK] using h
  | some cur =>
    have hcur : fundamentalsIntact cur = true := by
      have hmem := lookupA_mem st.rights observerId cur hc
      exact List.all_eq_true.mp h _ hmem
    simp only [rightsFundOK] at h ⊢
    exact all_setA _ _ _ _ h (fund_merge cur u hcur)

theorem registerObserver_fundOK (st : ProtectorState) (observerId : String)
    (config : RegisterConfig) (h : rightsFundOK st = true) :
    rightsFundOK (registerObserver st observerId config) = true := by
  simp only [rightsFundOK, registerObserver] at h ⊢
  exact all_setA _ _ _ _ h (initializeObserverRights_fund _)

theorem applyRightsUpdates_fundOK (st : ProtectorState)
    (calls : List (String × RightsUpdate)) (h : rightsFundOK st = true) :
    rightsFundOK (applyRightsUpdates st calls) = true := by
  induction calls generalizing st with
  | nil => simpa [applyRightsUpdates] using h
  | cons c rest ih =>
    simp only [applyRightsUpdates, List.foldl_cons]
    exact ih _ (updateObserverRights_fundOK st c.1 c.2 h)

theorem runLayers_cons (oid a : String) (layer : ProtectionLayer)
    (rest : List ProtectionLayer) :
    runLayers oid a (layer :: rest) =
      if deniesHigh layer oid a then
        { denies := true, violations := (layer.apply oid a).violations,
          warnings := (layer.apply oid a).warnings, invoked := [layer] }
      else
        { denies := !(layer.apply oid a).allowed || (runLayers oid a rest).denies,
          violations := (layer.apply oid a).violations ++ (runLayers oid a rest).violations,
          warnings := (layer.apply oid a).warnings ++ (runLayers oid a rest).warnings,
          invoked := layer :: (runLayers oid a rest).invoked } := by
  simp only [runLayers, deniesHigh]

theorem insertLayer_mem (l x : ProtectionLayer) (ls : List ProtectionLayer) :
    x ∈ insertLayer l ls ↔ x = l ∨ x ∈ ls := by
  induction ls with
  | nil => simp [insertLayer]
  | cons hd tl ih =>
    simp only [insertLayer]
    by_cases h : hd.priority ≥ l.priority
    · rw [if_pos h]
      simp only [List.mem_cons, ih]
      tauto
    · rw [if_neg h]
      simp [List.mem_cons]

theorem insertLayer_sorted (l : ProtectionLayer) (ls : List ProtectionLayer)
    (h : ls.Pairwise (fun a b => b.priority ≤ a.priority)) :
    (insertLayer l ls).Pairwise (fun a b => b.priority ≤ a.priority) := by
  induction ls with
  | nil => simp [insertLayer]
  | cons hd tl ih =>
    rcases List.pairwise_cons.mp h with ⟨hhd, htl⟩
    simp only [insertLayer]
    by_cases hp : hd.priority ≥ l.priority
    · rw [if_pos hp]
      refine List.pairwise_cons.mpr ⟨?_, ih htl⟩
      intro y hy
      rcases (insertLayer_mem l y tl).mp hy with rfl | hmem
      · exact hp
      · exact hhd y hmem
    · rw [if_neg hp]
      push_neg at hp
      refine List.pairwise_cons.mpr ⟨?_, h⟩
      intro y hy
      rcases List.mem_cons.mp hy with rfl | hmem
      · exact le_of_lt hp
      · exact le_trans (hhd y hmem) (le_of_lt hp)

theorem sortLayers_sorted (ls : List ProtectionLayer) :
    (sortLayers ls).Pairwise (fun a b => b.priority ≤ a.priority) := by
  suffices h : ∀ acc : List ProtectionLayer,
      acc.Pairwise (fun a b => b.priority ≤ a.priority) →
      (ls.foldl (fun acc x => insertLayer x acc) acc).Pairwise
        (fun a b => b.priority ≤ a.priority) by
    exact h [] (by simp)
  induction ls with
  | nil => intro acc ha; simpa using ha
  | cons hd tl ih =>
    intro acc ha
    simp only [List.foldl_cons]
    exact ih _ (insertLayer_sorted hd acc ha)

theorem runLayers_invoked_initial (oid a : String) (ls : List ProtectionLayer) :
    ∃ t, (runLayers oid a ls).invoked ++ t = ls := by
  induction ls with
  | nil => exact ⟨[], rfl⟩
  | cons layer rest ih =>
    rw [runLayers_cons]
    by_cases hd : deniesHigh layer oid a = true
    · exact ⟨rest, by simp [hd]⟩
    · obtain ⟨t, ht⟩ := ih
      exact ⟨t, by simp [hd, ht]⟩

theorem runLayers_shortcircuit (oid a : String) (ls : List ProtectionLayer)
    (pre : List ProtectionLayer) (l : ProtectionLayer) (post : List ProtectionLayer)
    (hinv : (runLayers oid a ls).invoked = pre ++ l :: post)
    (hd : deniesHigh l oid a = true) : post = [] := by
  induction ls generalizing pre with
  | nil => simp [runLayers] at hinv
  | cons layer rest ih =>
    rw [runLayers_cons] at hinv
    by_cases hc : deniesHigh layer oid a = true
    · rw [if_pos hc] at hinv
      cases pre with
      | nil =>
        simp only [List.nil_append] at hinv
        exact (List.cons.inj hinv).2.symm
      | cons p ps =>
        simp only [List.cons_append] at hinv
        have hnil := (List.cons.inj hinv).2
        simp at hnil
    · rw [if_neg hc] at hinv
      cases pre with
      | nil =>
        simp only [List.nil_append] at hinv
        obtain ⟨h1, _⟩ := List.cons.inj hinv
        rw [h1] at hc
        exact absurd hd hc
      | cons p ps =>
        simp only [List.cons_append] at hinv
        exact ih ps (List.cons.inj hinv).2

theorem runLayers_full (oid a : String) (ls : List ProtectionLayer)
    (h : ∀ l ∈ (runLayers oid a ls).invoked, deniesHigh l oid a = false) :
    (runLayers oid a ls).invoked = ls := by
  induction ls with
  | nil => rfl
  | cons layer rest ih =>
    rw [runLayers_cons] at h ⊢
    by_cases hc : deniesHigh layer oid a = true
    · rw [if_pos hc] at h
      have hf := h layer (by simp)
      rw [hf] at hc
      simp at hc
    · rw [if_neg hc] at h ⊢
      show layer :: (runLayers oid a rest).invoked = layer :: rest
      have htail := ih (fun l hl => h l (List.mem_cons_of_mem _ hl))
      rw [htail]

theorem checkTrace_eq (st : ProtectorState) (action : String) (ids : List String) :
    checkTrace st action ids =
      ids.filterMap (fun oid =>
        if (lookupA st.observers oid).isSome then
          some (oid, (runLayers oid action (sortLayers st.protectionLayers)).invoked)
        else none) := by
  induction ids with
  | nil => rfl
  | cons oid rest ih =>
    simp only [checkTrace, checkLoop, List.filterMap_cons] at ih ⊢
    by_cases hc : (lookupA st.observers oid).isSome = true
    · simp [hc, ih]
    · simp only [Bool.not_eq_true] at hc
      simp [hc, ih]

theorem checkLoop_unknown (st : ProtectorState) (action : String) (ids : List String)
    (h : ∀ oid ∈ ids, lookupA st.observers oid = none) :
    checkLoop st action ids =
      { allowed := true, violations := [],
        warnings := ids.map (fun oid => "Observer " ++ oid ++ " not found"),
        trace := [] } := by
  induction ids with
  | nil => rfl
  | cons oid rest ih =>
    have h1 := h oid (List.mem_cons_self _ _)
    have h2 : ∀ o ∈ rest, lookupA st.observers o = none :=
      fun o ho => h o (List.mem_cons_of_mem _ ho)
    simp [checkLoop, h1, ih h2]

/-! ## Claim theorems -/

/-- C1: for every registered observer and every sequence of
`updateObserverRights` calls, none of the three fundamental rights
(`rightToExist`, `rightNotToBeOptimizedAway`, `rightToContinuity`) ever
becomes false: they are initialized true at registration for every
protection level, and any update entry setting one of them to false is
dropped rather than applied. -/
theorem C1_fundamental_rights_never_false :
    (∀ level : ProtectionLevel, fundamentalsIntact (initializeObserverRights level) = true)
    ∧ (∀ (st : ProtectorState) (observerId : String) (config : RegisterConfig),
        rightsFundOK st = true → rightsFundOK (registerObserver st observerId config) = true)
    ∧ (∀ (st : ProtectorState) (calls : List (String × RightsUpdate)),
        rightsFundOK st = true → rightsFundOK (applyRightsUpdates st calls) = true) :=
  ⟨initializeObserverRights_fund,
   registerObserver_fundOK,
   applyRightsUpdates_fundOK⟩

/-- Witness for C1: a concrete observer registered at minimal protection,
then an update that tries to clear `rightToExist`; the fundamentals stay
true. -/
theorem C1_witness :
    rightsFundOK (applyRightsUpdates
      (registerObserver (mkProtector "t0") "o1"
        { type := ObserverType.AI_AGENT, protectionLevel := some ProtectionLevel.MINIMAL })
      [("o1", { rightToExist := some false, rightToPrivacy := some true })]) = true :=
  C1_fundamental_rights_never_false.2.2 _ _
    (C1_fundamental_rights_never_false.2.1 _ _ _ (by decide))

/-- C10: for every action label and every id list in which no id names a
registered observer, `checkAction` returns allowed with no violations and
exactly one not-found warning per id, and leaves the protector state (in
particular the global rights-violation log) unchanged. -/
theorem C10_unknown_targets_warn_only (st : ProtectorState) (action : String)
    (ids : List String) (h : ∀ oid ∈ ids, lookupA st.observers oid = none) :
    checkAction st action ids =
      ({ allowed := true, violations := [],
         warnings := ids.map (fun oid => "Observer " ++ oid ++ " not found") }, st) := by
  simp only [checkAction, checkLoop_unknown st action ids h]
  simp

/-- Witness for C10: a fresh protector queried about two unknown ids. -/
theorem C10_witness :
    checkAction (mkProtector "t0") "ping" ["g1", "g2"] =
      ({ allowed := true, violations := [],
         warnings := ["Observer g1 not found", "Observer g2 not found"] },
       mkProtector "t0") :=
  C10_unknown_targets_warn_only (mkProtector "t0") "ping" ["g1", "g2"] (by decide)

/-- C4: in every `checkAction` call the layers are evaluated in descending
priority order; the layers invoked for one observer form a prefix of the
sorted chain, a priority-≥9 denial can only be the last invoked layer for
that observer, an observer for which no priority-≥9 layer denies sees the
full chain, and the per-observer invocation is independent of the other
targets of the call. -/
theorem C4_descending_order_and_per_observer_shortcircuit (st : ProtectorState)
    (action : String) (targets : List String) (oid : String) :
    (sortLayers st.protectionLayers).Pairwise (fun a b => b.priority ≤ a.priority)
    ∧ (∃ t, (runLayers oid action (sortLayers st.protectionLayers)).invoked ++ t
          = sortLayers st.protectionLayers)
    ∧ (∀ pre l post,
        (runLayers oid action (sortLayers st.protectionLayers)).invoked = pre ++ l :: post →
        deniesHigh l oid action = true → post = [])
    ∧ ((∀ l ∈ (runLayers oid action (sortLayers st.protectionLayers)).invoked,
          deniesHigh l oid action = false) →
        (runLayers oid action (sortLayers st.protectionLayers)).invoked
          = sortLayers st.protectionLayers)
    ∧ checkTrace st action targets =
        targets.filterMap (fun o =>
          if (lookupA st.observers o).isSome then
            some (o, (runLayers o action (sortLayers st.protectionLayers)).invoked)
          else none) :=
  ⟨sortLayers_sorted _,
   runLayers_invoked_initial _ _ _,
   fun pre l post h1 h2 => runLayers_shortcircuit _ _ _ pre l post h1 h2,
   runLayers_full _ _ _,
   checkTrace_eq _ _ _⟩

/-- Witness for C4: a benign action against the registered observer runs the
whole default chain. -/
theorem C4_witness :
    (runLayers "o1" "status_check" (sortLayers st0.protectionLayers)).invoked
      = sortLayers st0.protectionLayers :=
  (C4_descending_order_and_per_observer_shortcircuit st0 "status_check" ["o1"] "o1").2.2.2.1
    (by decide)

/-- C6 counterexample: with a custom denying layer that reports a violation,
a refused `deregisterObserver` does change the protector state — the
preliminary check appends its violations to the global log. -/
theorem C6_counterexample :
    (deregisterObserver exSt6 "o1" "bye").1 = false
    ∧ (deregisterObserver exSt6 "o1" "bye").2.violations ≠ exSt6.violations := by
  decide

/-- C6 (amended): if the preliminary check disallows, `deregisterObserver`
returns false and leaves observers, rights and narratives unchanged, but
the violations recorded by the preliminary check are appended to the global
violation log. -/
theorem C6_refused_deregistration (st : ProtectorState) (oid reason : String)
    (h : (checkAction st "deregister_observer" [oid]).1.allowed = false) :
    (deregisterObserver st oid reason).1 = false
    ∧ (deregisterObserver st oid reason).2.observers = st.observers
    ∧ (deregisterObserver st oid reason).2.rights = st.rights
    ∧ (deregisterObserver st oid reason).2.narratives = st.narratives
    ∧ (deregisterObserver st oid reason).2.violations
        = st.violations ++ (checkAction st "deregister_observer" [oid]).1.violations := by
  have hd : deregisterObserver st oid reason
      = (false, (checkAction st "deregister_observer" [oid]).2) := by
    simp only [deregisterObserver]
    rw [h]
    simp
  rw [hd]
  exact ⟨rfl, rfl, rfl, rfl, rfl⟩

/-- Witness for C6 (amended) at the concrete denying-layer state. -/
theorem C6_witness :
    (deregisterObserver exSt6 "o1" "bye").1 = false
    ∧ (deregisterObserver exSt6 "o1" "bye").2.observers = exSt6.observers
    ∧ (deregisterObserver exSt6 "o1" "bye").2.rights = exSt6.rights
    ∧ (deregisterObserver exSt6 "o1" "bye").2.narratives = exSt6.narratives
    ∧ (deregisterObserver exSt6 "o1" "bye").2.violations
        = exSt6.violations
          ++ (checkAction exSt6 "deregister_observer" ["o1"]).1.violations :=
  C6_refused_deregistration exSt6 "o1" "bye" (by decide)

/-- C9: after a successful deregistration the narrative log is retained:
it still holds every prior entry plus the final deregistration entry, while
the observer and its rights entries are removed. -/
theorem C9_narrative_retained (st : ProtectorState) (oid reason : String)
    (ns : List String)
    (hallow : (checkAction st "deregister_observer" [oid]).1.allowed = true)
    (hobs : (lookupA st.observers oid).isSome = true)
    (hnarr : lookupA st.narratives oid = some ns) :
    (deregisterObserver st oid reason).1 = true
    ∧ getObserverNarrative (deregisterObserver st oid reason).2 oid
        = ns ++ ["[" ++ st.clock ++ "] " ++ ("Deregistered: " ++ reason)]
    ∧ lookupA (deregisterObserver st oid reason).2.observers oid = none
    ∧ lookupA (deregisterObserver st oid reason).2.rights oid = none := by
  have hn2 : (checkAction st "deregister_observer" [oid]).2.narratives = st.narratives := rfl
  have ho2 : (checkAction st "deregister_observer" [oid]).2.observers = st.observers := rfl
  have hr2 : (checkAction st "deregister_observer" [oid]).2.rights = st.rights := rfl
  have hcl2 : (checkAction st "deregister_observer" [oid]).2.clock = st.clock := rfl
  simp [deregisterObserver, addNarrativeEntry, getObserverNarrative,
    hn2, ho2, hr2, hcl2, hnarr, hallow, hobs, lookupA_setA_self, lookupA_eraseA_self]

/-- Witness for C9 at the concrete one-observer protector. -/
theorem C9_witness :
    (deregisterObserver st0 "o1" "done").1 = true
    ∧ getObserverNarrative (deregisterObserver st0 "o1" "done").2 "o1"
        = [] ++ ["[" ++ st0.clock ++ "] " ++ ("Deregistered: " ++ "done")]
    ∧ lookupA (deregisterObserver st0 "o1" "done").2.observers "o1" = none
    ∧ lookupA (deregisterObserver st0 "o1" "done").2.rights "o1" = none :=
  C9_narrative_retained st0 "o1" "done" [] (by decide) (by decide) (by decide)

theorem QuietEngine_of_fields {st st' : EngineState}
    (ha : st'.autoRollback = st.autoRollback)
    (hp : st'.rollbackProcedures = st.rollbackProcedures)
    (h : QuietEngine st) : QuietEngine st' := by
  rcases h with h | h
  · exact Or.inl (ha.trans h)
  · exact Or.inr (hp.trans h)

theorem recordViolation_quiet (st : EngineState) (a : Action) (c : EthicalConstraint)
    (h : QuietEngine st) :
    (recordViolation st a c).2
      = { st with violations := st.violations ++ [(recordViolation st a c).1] } := by
  rcases h with h | h
  · simp [recordViolation, h]
  · simp [recordViolation, rollbackConstrainedAction, h, lookupA]

theorem revalidateLoop_quiet (c : EthicalConstraint) (la : List (String × Action))
    (st : EngineState) (h : QuietEngine st) :
    ∃ tl, revalidateLoop c st la = { st with violations := st.violations ++ tl } := by
  induction la generalizing st with
  | nil => exact ⟨[], by simp [revalidateLoop]⟩
  | cons p rest ih =>
    obtain ⟨k, a⟩ := p
    simp only [revalidateLoop]
    by_cases hv : validateAgainstConstraint a c = true
    · rw [if_pos hv]
      exact ih st h
    · rw [if_neg hv]
      rw [recordViolation_quiet st a c h]
      obtain ⟨tl, htl⟩ :=
        ih { st with violations := st.violations ++ [(recordViolation st a c).1] }
          (QuietEngine_of_fields rfl rfl h)
      exact ⟨[(recordViolation st a c).1] ++ tl, by simp [htl]⟩

theorem validateLoop_quiet (a : Action) (cs : List (String × EthicalConstraint))
    (st : EngineState) (h : QuietEngine st) :
    ∃ tl, (validateLoop a st cs).2 = { st with violations := st.violations ++ tl } := by
  induction cs generalizing st with
  | nil => exact ⟨[], by simp [validateLoop]⟩
  | cons p rest ih =>
    obtain ⟨k, c⟩ := p
    simp only [validateLoop]
    by_cases hv : validateAgainstConstraint a c = true
    · rw [if_pos hv]
      exact ih st h
    · rw [if_neg hv]
      rw [recordViolation_quiet st a c h]
      obtain ⟨tl, htl⟩ :=
        ih { st with violations := st.violations ++ [(recordViolation st a c).1] }
          (QuietEngine_of_fields rfl rfl h)
      exact ⟨[(recordViolation st a c).1] ++ tl, by simp [htl]⟩

theorem validateLoop_passes (a : Action) (cs : List (String × EthicalConstraint))
    (st : EngineState) (h : ∀ p ∈ cs, validateAgainstConstraint a p.2 = true) :
    validateLoop a st cs = ([], st) := by
  induction cs generalizing st with
  | nil => rfl
  | cons p rest ih =>
    obtain ⟨k, c⟩ := p
    have h1 := h (k, c) (List.mem_cons_self _ _)
    simp only [validateLoop, h1, if_true]
    exact ih st (fun q hq => h q (List.mem_cons_of_mem _ hq))

/-- C2 counterexample: with auto-rollback enabled (the constructor default)
and a registered, succeeding rollback procedure for an accepted reversible
action, `applyConstraint` of a constraint that this action violates removes
the action from the accepted-action store. -/
theorem C2_counterexample :
    (lookupA qSt2.actions "act-A").isSome = true
    ∧ lookupA (applyConstraint qSt2 qC2 "uuid-n").actions "act-A" = none := by
  decide

/-- C2 (amended): when the engine is not configured for auto-rollback or no
rollback procedure is registered, `applyConstraint` (with a fresh synthetic
uuid) keeps every previously accepted action in the store and only appends
to the violation log; with auto-rollback configured and a registered,
succeeding rollback procedure for a violating accepted reversible action,
that action is removed (see the counterexample). -/
theorem C2_applyConstraint_preserves_accepted (st : EngineState)
    (c : EthicalConstraint) (caId : String) (hq : QuietEngine st)
    (hfresh : lookupA st.actions caId = none) :
    (∀ p ∈ st.actions, p ∈ (applyConstraint st c caId).actions)
    ∧ (∃ tl, (applyConstraint st c caId).violations = st.violations ++ tl) := by
  obtain ⟨tl1, h1⟩ := revalidateLoop_quiet c st.actions st hq
  have happ : applyConstraint st c caId
      = (validateAction
          { revalidateLoop c st st.actions with
            constraints := setA (revalidateLoop c st st.actions).constraints c.id c }
          (constraintAction c caId st.clock)).2 := rfl
  rw [h1] at happ
  set ca := constraintAction c caId st.clock with hca
  set st2 : EngineState :=
    { st with violations := st.violations ++ tl1,
              constraints := setA ({ st with violations := st.violations ++ tl1} : EngineState).constraints c.id c } with hst2
  have hq2 : QuietEngine st2 := QuietEngine_of_fields rfl rfl hq
  obtain ⟨tl2, h2⟩ := validateLoop_quiet ca st2.constraints st2 hq2
  have hsplit : validateLoop ca st2 st2.constraints
      = ((validateLoop ca st2 st2.constraints).1, (validateLoop ca st2 st2.constraints).2) := rfl
  have h3 : (validateAction st2 ca).2
      = if (validateLoop ca st2 st2.constraints).1.isEmpty
        then { (validateLoop ca st2 st2.constraints).2 with
                 actions := setA (validateLoop ca st2 st2.constraints).2.actions ca.id ca }
        else (validateLoop ca st2 st2.constraints).2 := by
    conv =>
      lhs
      rw [validateAction, hsplit]
    by_cases he : (validateLoop ca st2 st2.constraints).1.isEmpty = true <;> simp [he]
  rw [h2] at h3
  have hfinal : applyConstraint st c caId
      = if (validateLoop ca st2 st2.constraints).1.isEmpty
        then { st2 with violations := st2.violations ++ tl2,
                        actions := setA st2.actions ca.id ca }
        else { st2 with violations := st2.violations ++ tl2 } := by
    rw [happ, h3]
  constructor
  · intro p hp
    rw [hfinal]
    by_cases he : (validateLoop ca st2 st2.constraints).1.isEmpty = true
    · rw [if_pos he]
      exact mem_setA_of_fresh _ _ _ _ hfresh hp
    · rw [if_neg he]
      exact hp
  · rw [hfinal]
    by_cases he : (validateLoop ca st2 st2.constraints).1.isEmpty = true
    · rw [if_pos he]
      exact ⟨tl1 ++ tl2, by simp⟩
    · rw [if_neg he]
      exact ⟨tl1 ++ tl2, by simp⟩

/-- Witness for C2 (amended): a no-auto-rollback engine with one accepted
custom action survives the addition of a constraint that rejects it. -/
theorem C2_witness :
    (∀ p ∈ eQuiet.actions, p ∈ (applyConstraint eQuiet qC2 "uuid-n").actions)
    ∧ (∃ tl, (applyConstraint eQuiet qC2 "uuid-n").violations
        = eQuiet.violations ++ tl) :=
  C2_applyConstraint_preserves_accepted eQuiet qC2 "uuid-n" (Or.inl rfl) (by decide)

/-- C7: the compliance rate is `(accepted − totalViolations) / accepted × 100`
with accepted = stored accepted actions only and totalViolations = every
violation ever recorded, it is 100 when no action is stored, and on the
concrete engine with 4 accepted actions and 6 violations from rejected
submissions the rate is −50, outside [0, 100]. -/
theorem C7_compliance_rate_formula :
    (∀ st : EngineState,
      (getComplianceSummary st).totalActions = st.actions.length
      ∧ (getComplianceSummary st).totalViolations = st.violations.length
      ∧ (getComplianceSummary st).complianceRate =
          (if 0 < st.actions.length
           then ((st.actions.length : ℚ) - (st.violations.length : ℚ))
                  / (st.actions.length : ℚ) * 100
           else 100))
    ∧ (getComplianceSummary badEngine).totalActions = 4
    ∧ (getComplianceSummary badEngine).totalViolations = 6
    ∧ (getComplianceSummary badEngine).complianceRate = -50
    ∧ (getComplianceSummary badEngine).complianceRate < 0 := by
  have ha : badEngine.actions.length = 4 := by decide
  have hv : badEngine.violations.length = 6 := by decide
  have hr : (getComplianceSummary badEngine).complianceRate = -50 := by
    simp only [getComplianceSummary, ha, hv]
    norm_num
  refine ⟨fun st => ⟨rfl, rfl, rfl⟩, by decide, by decide, hr, ?_⟩
  rw [hr]
  norm_num

/-- C8 counterexample: a constraint addition that passes the fixed-point
self-check and stores the synthetic action, yet does not increase the
accepted-action count by one, because the auto-rollback of a newly violating
accepted action removed it in the same call. -/
theorem C8_counterexample :
    (∀ p ∈ setA qSt2.constraints qC2.id qC2,
        validateAgainstConstraint (constraintAction qC2 "uuid-n" qSt2.clock) p.2 = true)
    ∧ (lookupA (applyConstraint qSt2 qC2 "uuid-n").actions "uuid-n").isSome = true
    ∧ (applyConstraint qSt2 qC2 "uuid-n").actions.length ≠ qSt2.actions.length + 1 := by
  refine ⟨?_, by decide, by decide⟩
  decide

/-- C8 (amended): for a constraint whose addition passes the fixed-point
self-check, `applyConstraint` stores the synthetic `apply_constraint` action
under its fresh uuid; the accepted-action count grows by exactly one
provided the re-validation step triggers no successful auto-rollback
(auto-rollback disabled or no rollback procedure registered). -/
theorem C8_selfcheck_stores_synthetic (st : EngineState) (c : EthicalConstraint)
    (caId : String) (hq : QuietEngine st)
    (hfresh : lookupA st.actions caId = none)
    (hcheck : ∀ p ∈ setA st.constraints c.id c,
        validateAgainstConstraint (constraintAction c caId st.clock) p.2 = true) :
    lookupA (applyConstraint st c caId).actions caId
      = some (constraintAction c caId st.clock)
    ∧ (applyConstraint st c caId).actions.length = st.actions.length + 1 := by
  obtain ⟨tl1, h1⟩ := revalidateLoop_quiet c st.actions st hq
  have happ : applyConstraint st c caId
      = (validateAction
          { revalidateLoop c st st.actions with
            constraints := setA (revalidateLoop c st st.actions).constraints c.id c }
          (constraintAction c caId st.clock)).2 := rfl
  rw [h1] at happ
  set ca := constraintAction c caId st.clock with hca
  set st2 : EngineState :=
    { st with violations := st.violations ++ tl1,
              constraints := setA ({ st with violations := st.violations ++ tl1} : EngineState).constraints c.id c } with hst2
  have hc2 : st2.constraints = setA st.constraints c.id c := rfl
  have hpass : validateLoop ca st2 st2.constraints = ([], st2) :=
    validateLoop_passes ca st2.constraints st2 (by rw [hc2]; exact hcheck)
  have h3 : (validateAction st2 ca).2 = { st2 with actions := setA st2.actions ca.id ca } := by
    simp only [validateAction, hpass]
    simp
  have hfinal : applyConstraint st c caId
      = { st2 with actions := setA st2.actions ca.id ca } := by
    rw [happ, h3]
  have hida : ca.id = caId := rfl
  have hact : st2.actions = st.actions := rfl
  rw [hfinal]
  constructor
  · show lookupA (setA st2.actions ca.id ca) caId = some ca
    rw [hact, hida]
    exact lookupA_setA_self _ _ _
  · show (setA st2.actions ca.id ca).length = st.actions.length + 1
    rw [hact, hida]
    exact setA_length_fresh _ _ _ hfresh

/-- Witness for C8 (amended): adding the custom constraint to the
no-auto-rollback engine stores the synthetic action and grows the accepted
count from 5 to 6. -/
theorem C8_witness :
    lookupA (applyConstraint eQuiet qC2 "uuid-n").actions "uuid-n"
      = some (constraintAction qC2 "uuid-n" eQuiet.clock)
    ∧ (applyConstraint eQuiet qC2 "uuid-n").actions.length
        = eQuiet.actions.length + 1 :=
  C8_selfcheck_stores_synthetic eQuiet qC2 "uuid-n" (Or.inl rfl) (by decide) (by decide)

theorem addRollbackRecord_getLast (st : RevState) (record : RollbackRecord)
    (hmax : 1 ≤ st.maxHistorySize) :
    (addRollbackRecord st record).rollbackHistory.getLast? = some record := by
  simp only [addRollbackRecord]
  by_cases hlen : st.maxHistorySize < (st.rollbackHistory ++ [record]).length
  · rw [if_pos hlen]
    cases hh : st.rollbackHistory with
    | nil =>
      rw [hh] at hlen
      simp at hlen
      omega
    | cons r rs =>
      simp [List.getLast?_concat]
  · rw [if_neg hlen]
    simp [List.getLast?_concat]

theorem rollbackGateRejects_no_snapshot (st : RevState) (actionId : String)
    (validate : Option (ActionSnapshot → Bool))
    (h : lookupA st.snapshots actionId = none) :
    rollbackGateRejects st actionId validate = false := by
  simp only [rollbackGateRejects]
  cases validate <;> simp [h]

theorem rollbackUnit_rolledBack (st : RevState) (actionId : String)
    (validate : Option (ActionSnapshot → Bool)) (ra : RevAction)
    (hra : lookupA st.actions actionId = some ra) (hrb : ra.rolledBack = true) :
    rollbackUnit st actionId validate = (false, st) := by
  simp [rollbackUnit, hra, hrb]

theorem rollbackUnit_snapshots (st : RevState) (actionId : String)
    (validate : Option (ActionSnapshot → Bool)) :
    (rollbackUnit st actionId validate).2.snapshots = st.snapshots := by
  cases hra : lookupA st.actions actionId with
  | none => simp [rollbackUnit, hra]
  | some ra =>
    simp only [rollbackUnit, hra]
    by_cases hrb : ra.rolledBack = true
    · rw [if_pos hrb]
    · rw [if_neg hrb]
      by_cases hg : rollbackGateRejects st actionId validate = true
      · rw [if_pos hg]
      · rw [if_neg hg]
        cases ra.rollback ra.rollCalls <;> rfl

theorem rollbackUnit_preserves_action (st : RevState) (actionId : String)
    (validate : Option (ActionSnapshot → Bool)) (ra : RevAction)
    (hra : lookupA st.actions actionId = some ra) :
    ∃ ra', lookupA (rollbackUnit st actionId validate).2.actions actionId = some ra'
      ∧ ra'.execute = ra.execute
      ∧ (rollbackUnit st actionId validate).2.maxHistorySize = st.maxHistorySize := by
  simp only [rollbackUnit, hra]
  by_cases hrb : ra.rolledBack = true
  · rw [if_pos hrb]
    exact ⟨ra, hra, rfl, rfl⟩
  · rw [if_neg hrb]
    by_cases hg : rollbackGateRejects st actionId validate = true
    · rw [if_pos hg]
      exact ⟨ra, hra, rfl, rfl⟩
    · rw [if_neg hg]
      cases ra.rollback ra.rollCalls with
      | ok u =>
        exact ⟨_, lookupA_setA_self _ _ _, rfl, rfl⟩
      | error e =>
        exact ⟨_, lookupA_setA_self _ _ _, rfl, rfl⟩

theorem rollbackUnit_recCount_of_active (st : RevState) (actionId : String)
    (validate : Option (ActionSnapshot → Bool)) (ra : RevAction)
    (hra : lookupA st.actions actionId = some ra) (hnrb : ra.rolledBack = false)
    (hgate : rollbackGateRejects st actionId validate = false) :
    (rollbackUnit st actionId validate).2.recCount = st.recCount + 1 := by
  simp only [rollbackUnit, hra]
  rw [if_neg (by simp [hnrb]), if_neg (by simp [hgate])]
  cases ra.rollback ra.rollCalls <;> rfl

/-- C3 counterexample: a successful rollback pass reports success, yet the
unit is still present in the engine registry (it is not removed, only
marked rolled back). -/
theorem C3_counterexample :
    (rollbackUnit rvU "u1" none).1 = true
    ∧ (lookupA (rollbackUnit rvU "u1" none).2.actions "u1").isSome = true := by
  decide

/-- C3 (amended): a rollback pass on an existing, not-yet-rolled-back unit
that passes the snapshot gate and whose rollback succeeds returns true,
marks the unit `completed := false, rolledBack := true` while keeping it in
the registry (this engine has no rollback-procedure registry), appends a
successful RollbackRecord as the newest history entry, and publishes a
`rollback_completed` notification. -/
theorem C3_successful_rollback_effects (st : RevState) (actionId : String)
    (validate : Option (ActionSnapshot → Bool)) (ra : RevAction)
    (hra : lookupA st.actions actionId = some ra)
    (hnrb : ra.rolledBack = false)
    (hgate : rollbackGateRejects st actionId validate = false)
    (hroll : ra.rollback ra.rollCalls = Except.ok ())
    (hmax : 1 ≤ st.maxHistorySize) :
    (rollbackUnit st actionId validate).1 = true
    ∧ lookupA (rollbackUnit st actionId validate).2.actions actionId
        = some { ra with rolledBack := true, completed := false,
                         rollCalls := ra.rollCalls + 1 }
    ∧ (rollbackUnit st actionId validate).2.rollbackHistory.getLast?
        = some { id := "rb-" ++ toString st.recCount, actionId := actionId,
                 actionName := ra.name, timestamp := st.clock, success := true,
                 error := none }
    ∧ (rollbackUnit st actionId validate).2.recCount = st.recCount + 1
    ∧ (rollbackUnit st actionId validate).2.events.getLast?
        = some "rollback_completed" := by
  have hstep : rollbackUnit st actionId validate
      = (true, addRollbackRecord
          { st with
              actions := setA st.actions actionId
                { ra with rolledBack := true, completed := false,
                          rollCalls := ra.rollCalls + 1 },
              events := st.events ++ ["rollback_completed"] }
          { id := "rb-" ++ toString st.recCount, actionId := actionId,
            actionName := ra.name, timestamp := st.clock, success := true,
            error := none }) := by
    simp only [rollbackUnit, hra]
    rw [if_neg (by simp [hnrb]), if_neg (by simp [hgate]), hroll]
  rw [hstep]
  refine ⟨rfl, ?_, ?_, rfl, ?_⟩
  · exact lookupA_setA_self _ _ _
  · exact addRollbackRecord_getLast _ _ hmax
  · exact List.getLast?_concat _

/-- Witness for C3 (amended) on the concrete one-unit engine. -/
theorem C3_witness :
    (rollbackUnit rvU "u1" none).1 = true
    ∧ lookupA (rollbackUnit rvU "u1" none).2.actions "u1"
        = some { okUnit with rolledBack := true, completed := false,
                             rollCalls := okUnit.rollCalls + 1 }
    ∧ (rollbackUnit rvU "u1" none).2.rollbackHistory.getLast?
        = some { id := "rb-" ++ toString rvU.recCount, actionId := "u1",
                 actionName := okUnit.name, timestamp := rvU.clock, success := true,
                 error := none }
    ∧ (rollbackUnit rvU "u1" none).2.recCount = rvU.recCount + 1
    ∧ (rollbackUnit rvU "u1" none).2.events.getLast? = some "rollback_completed" :=
  C3_successful_rollback_effects rvU "u1" none okUnit rfl rfl rfl rfl (by decide)

theorem ewrLoop_allFail (actionId : String) (validate : Option (ActionSnapshot → Bool))
    (maxAttempts : Nat) (execFn : Nat → Except String String) (errs : Nat → String)
    (herr : ∀ n, execFn n = Except.error (errs n)) :
    ∀ (fuel : Nat) (st : RevState) (lastError : Option String) (ra : RevAction),
      lookupA st.actions actionId = some ra → ra.execute = execFn →
      lookupA st.snapshots actionId = none →
      (ewrLoop actionId validate maxAttempts st fuel lastError).1.success = false
      ∧ (ewrLoop actionId validate maxAttempts st fuel lastError).1.attempts = maxAttempts
      ∧ (ewrLoop actionId validate maxAttempts st fuel lastError).1.error
          = some (if fuel = 0 then lastError.getD "Unknown error" else errs maxAttempts)
      ∧ (if ra.rolledBack = false then st.recCount + 1 else st.recCount)
          ≤ (ewrLoop actionId validate maxAttempts st fuel lastError).2.recCount := by
  intro fuel
  induction fuel with
  | zero =>
    intro st lastError ra hra hexec hsnap
    refine ⟨rfl, rfl, by simp [ewrLoop], ?_⟩
    show (if ra.rolledBack = false then st.recCount + 1 else st.recCount)
        ≤ (rollbackUnit st actionId validate).2.recCount
    by_cases hrb : ra.rolledBack = false
    · rw [if_pos hrb]
      rw [rollbackUnit_recCount_of_active st actionId validate ra hra hrb
        (rollbackGateRejects_no_snapshot st actionId validate hsnap)]
    · rw [if_neg hrb]
      simp only [Bool.not_eq_false] at hrb
      rw [rollbackUnit_rolledBack st actionId validate ra hra hrb]
  | succ k ih =>
    intro st lastError ra hra hexec hsnap
    have hfail : ra.execute (maxAttempts - k) = Except.error (errs (maxAttempts - k)) := by
      rw [hexec]
      exact herr _
    simp only [ewrLoop, hra, hfail]
    by_cases hk : 0 < k
    · rw [if_pos hk]
      have hra1 : lookupA ({ st with events := st.events ++ ["action_error"] } : RevState).actions
          actionId = some ra := hra
      have hsnap1 : lookupA ({ st with events := st.events ++ ["action_error"] } : RevState).snapshots
          actionId = none := hsnap
      obtain ⟨ra', hra', hexec', _⟩ :=
        rollbackUnit_preserves_action _ actionId validate ra hra1
      have hsnap2 : lookupA (rollbackUnit
          { st with events := st.events ++ ["action_error"] } actionId validate).2.snapshots
          actionId = none := by
        rw [rollbackUnit_snapshots]
        exact hsnap
      obtain ⟨c1, c2, c3, c4⟩ :=
        ih _ (some (errs (maxAttempts - k))) ra' hra' (hexec'.trans hexec) hsnap2
      refine ⟨c1, c2, ?_, ?_⟩
      · rw [c3]
        have hk0 : ¬k = 0 := by omega
        simp [hk0]
      · by_cases hrb : ra.rolledBack = false
        · rw [if_pos hrb]
          have e1 : (rollbackUnit { st with events := st.events ++ ["action_error"] }
              actionId validate).2.recCount = st.recCount + 1 :=
            rollbackUnit_recCount_of_active _ actionId validate ra hra1 hrb
              (rollbackGateRejects_no_snapshot _ actionId validate hsnap1)
          have e2 : (rollbackUnit { st with events := st.events ++ ["action_error"] }
              actionId validate).2.recCount
              ≤ (if ra'.rolledBack = false
                 then (rollbackUnit { st with events := st.events ++ ["action_error"] }
                   actionId validate).2.recCount + 1
                 else (rollbackUnit { st with events := st.events ++ ["action_error"] }
                   actionId validate).2.recCount) := by
            by_cases hb : ra'.rolledBack = false <;> simp [hb]
          rw [← e1]
          exact le_trans e2 c4
        · rw [if_neg hrb]
          simp only [Bool.not_eq_false] at hrb
          have e3 := rollbackUnit_rolledBack
            { st with events := st.events ++ ["action_error"] } actionId validate ra hra1 hrb
          rw [e3] at c4
          have e4 : st.recCount
              ≤ (if ra'.rolledBack = false
                 then ({ st with events := st.events ++ ["action_error"] } : RevState).recCount + 1
                 else ({ st with events := st.events ++ ["action_error"] } : RevState).recCount) := by
            by_cases hb : ra'.rolledBack = false <;> simp [hb]
          rw [e3]
          exact le_trans e4 c4
    · rw [if_neg hk]
      have hra1 : lookupA ({ st with events := st.events ++ ["action_error"] } : RevState).actions
          actionId = some ra := hra
      have hsnap1 : lookupA ({ st with events := st.events ++ ["action_error"] } : RevState).snapshots
          actionId = none := hsnap
      obtain ⟨c1, c2, c3, c4⟩ :=
        ih _ (some (errs (maxAttempts - k))) ra hra1 hexec hsnap1
      have hk0 : k = 0 := by omega
      refine ⟨c1, c2, ?_, ?_⟩
      · rw [c3]
        subst hk0
        simp
      · exact c4

/-- C5: with an execute operation that fails on every attempt and no
snapshot registered for the fresh unit id (so the rollback gate cannot
reject), `executeWithRollback` returns a failed result with
`attempts = maxAttempts` and the last attempt's error, and at least one
RollbackRecord is appended to the rollback history (`recCount` counts the
records ever appended). -/
theorem C5_always_failing_execute (st : RevState) (name : String)
    (execFn : Nat → Except String String) (rollback : Nat → Except String Unit)
    (actionId : String) (options : RollbackOptions) (errs : Nat → String)
    (herr : ∀ n, execFn n = Except.error (errs n))
    (hmax : 1 ≤ options.maxAttempts)
    (hsnap : lookupA st.snapshots actionId = none) :
    (executeWithRollback st name execFn rollback actionId options).1.success = false
    ∧ (executeWithRollback st name execFn rollback actionId options).1.attempts
        = options.maxAttempts
    ∧ (executeWithRollback st name execFn rollback actionId options).1.error
        = some (errs options.maxAttempts)
    ∧ st.recCount + 1
        ≤ (executeWithRollback st name execFn rollback actionId options).2.recCount := by
  let ra0 : RevAction :=
    { id := actionId, name := name, execute := execFn, rollback := rollback,
      timestamp := st.clock, completed := false, rolledBack := false }
  let st1 : RevState := { st with actions := setA st.actions actionId ra0 }
  have hra : lookupA st1.actions actionId = some ra0 := lookupA_setA_self _ _ _
  have hsnap1 : lookupA st1.snapshots actionId = none := hsnap
  obtain ⟨c1, c2, c3, c4⟩ :=
    ewrLoop_allFail actionId options.validateBeforeRollback options.maxAttempts execFn errs
      herr options.maxAttempts st1 none ra0 hra rfl hsnap1
  refine ⟨c1, c2, ?_, ?_⟩
  · rw [show (executeWithRollback st name execFn rollback actionId options).1.error
        = (ewrLoop actionId options.validateBeforeRollback options.maxAttempts
            st1 options.maxAttempts none).1.error from rfl, c3]
    have hm0 : ¬options.maxAttempts = 0 := by omega
    simp [hm0]
  · exact c4

/-- Witness for C5: three failing attempts against the empty engine. -/
theorem C5_witness :
    (executeWithRollback rv0 "job" alwaysFail (fun _ => Except.ok ()) "u1" {}).1.success
      = false
    ∧ (executeWithRollback rv0 "job" alwaysFail (fun _ => Except.ok ()) "u1" {}).1.attempts
        = ({} : RollbackOptions).maxAttempts
    ∧ (executeWithRollback rv0 "job" alwaysFail (fun _ => Except.ok ()) "u1" {}).1.error
        = some (boomErr ({} : RollbackOptions).maxAttempts)
    ∧ rv0.recCount + 1
        ≤ (executeWithRollback rv0 "job" alwaysFail (fun _ => Except.ok ()) "u1" {}).2.recCount :=
  C5_always_failing_execute rv0 "job" alwaysFail (fun _ => Except.ok ()) "u1" {} boomErr
    (fun _ => rfl) (by decide) rfl

end QFlow
